import Mathlib

/-!
Verification of the fiber-optic network analysis core (fo-analysis).

This file gives a shallow embedding, in Lean 4 over `ℚ` for the Python
floats, of the three core services of the repository:

* `opm_calculator.py`  — the optical link-budget engine,
* `comparison_service.py` — the as-planned vs as-built reconciliation engine,
* `kml_parser.py` — the geo-document (KML) parser.

Python strings are `String`, Python `None`-able values are `Option`,
Python floats are `ℚ` (all claims under scrutiny only involve decimal
arithmetic that is exact in `ℚ` and stable under the 2-decimal rounding the
code applies), and a Python operation that can raise for some inputs is
embedded as an `Option`-returning function (`none` = the exception).
-/

namespace FoAnalysis

/-! ## Python-semantics helpers (strings, rounding, splitting) -/

/-- The characters Python treats as whitespace in `str.strip`, `str.split()`
and the regex class `\s` (for the ASCII inputs handled here). -/
def pyIsSpace (c : Char) : Bool :=
  c = ' ' || c = '\t' || c = '\n' || c = '\r' || c = '\x0b' || c = '\x0c'

/-- Strip leading and trailing whitespace from a character list
(Python `str.strip()`). -/
def pyStripL (l : List Char) : List Char :=
  ((l.dropWhile pyIsSpace).reverse.dropWhile pyIsSpace).reverse

/-- Python `str.strip()`. -/
def pyStripS (s : String) : String :=
  String.mk (pyStripL s.data)

/-- Python `str.lower()` (ASCII, which covers every string the sources use). -/
def pyLower (s : String) : String :=
  String.mk (s.data.map Char.toLower)

/-- Does `pat` occur as a contiguous sublist of `hay`?  (Python `pat in hay`.) -/
def containsSub (hay pat : List Char) : Bool :=
  match hay with
  | [] => pat.isEmpty
  | c :: t => pat.isPrefixOf (c :: t) || containsSub t pat

/-- Python `pat in hay` on strings. -/
def strIn (pat hay : String) : Bool :=
  containsSub hay.data pat.data

/-- Worker for `replaceSub`: structural recursion on a fuel argument that
starts at the length of the string, which bounds the number of steps. -/
def replaceSubGo (pat rep : List Char) : ℕ → List Char → List Char
  | _, [] => []
  | 0, s => s
  | fuel + 1, c :: rest =>
    if pat ≠ [] ∧ pat.isPrefixOf (c :: rest) then
      rep ++ replaceSubGo pat rep fuel ((c :: rest).drop pat.length)
    else
      c :: replaceSubGo pat rep fuel rest

/-- Replace every (leftmost, non-overlapping) occurrence of `pat` by `rep`
(Python `str.replace`; the sources only call it with non-empty patterns, and
for an empty pattern this embedding is the identity). -/
def replaceSub (pat rep s : List Char) : List Char :=
  replaceSubGo pat rep s.length s

/-- Python `str.replace` on strings. -/
def pyReplace (s pat rep : String) : String :=
  String.mk (replaceSub pat.data rep.data s.data)

/-- Worker for `pySplitWs`, carrying the (reversed) current word. -/
def pySplitWsAux : List Char → List Char → List (List Char)
  | cur, [] => if cur.isEmpty then [] else [cur.reverse]
  | cur, c :: t =>
    if pyIsSpace c then
      if cur.isEmpty then pySplitWsAux [] t
      else cur.reverse :: pySplitWsAux [] t
    else pySplitWsAux (c :: cur) t

/-- Python `str.split()` with no separator: split on runs of whitespace,
discarding empty fields. -/
def pySplitWs (s : List Char) : List (List Char) :=
  pySplitWsAux [] s

/-- Python `str.split(',')`: split at every comma, keeping empty fields. -/
def splitOnComma (s : List Char) : List (List Char) :=
  match s with
  | [] => [[]]
  | c :: rest =>
    if c = ',' then [] :: splitOnComma rest
    else
      match splitOnComma rest with
      | w :: ws => (c :: w) :: ws
      | [] => [[c]]

/-- Numeric value of a list of decimal digits. -/
def digitsToNat (l : List Char) : ℕ :=
  l.foldl (fun a c => 10 * a + (c.toNat - '0'.toNat)) 0

/-- Python `float(s)` restricted to the plain decimal forms the repository
actually feeds it: optional surrounding whitespace, optional sign, digits
with an optional single decimal point (`"12"`, `"1.5"`, `".5"`, `"1."`).
Exotic accepted forms (exponents, `inf`, `nan`, underscores) are outside the
inputs of every claim and are not modelled; every rejection modelled here
(`none`) is a `ValueError` in Python. -/
def pyFloatCore (l : List Char) : Option ℚ :=
  let ip := l.takeWhile Char.isDigit
  let rest := l.drop ip.length
  match rest with
  | [] => if ip.isEmpty then none else some (digitsToNat ip : ℚ)
  | '.' :: fp =>
    if fp.all Char.isDigit && !(ip.isEmpty && fp.isEmpty) then
      some ((digitsToNat ip : ℚ) + (digitsToNat fp : ℚ) / (10 ^ fp.length))
    else none
  | _ => none

/-- Python `float(s)` (see `pyFloatCore`). -/
def pyFloat? (s : String) : Option ℚ :=
  match pyStripL s.data with
  | '+' :: t => pyFloatCore t
  | '-' :: t => (pyFloatCore t).map Neg.neg
  | t => pyFloatCore t

/-- Round to the nearest integer, ties to even (the rounding of Python's
built-in `round`). -/
def rine (q : ℚ) : ℤ :=
  let f := ⌊q⌋
  let r := q - (f : ℚ)
  if r < 1 / 2 then f
  else if 1 / 2 < r then f + 1
  else if f % 2 = 0 then f else f + 1

/-- Python `round(x, 2)`. -/
def round2 (q : ℚ) : ℚ :=
  (rine (q * 100) : ℚ) / 100

/-- Python `f-string` formatting with `:.1f`. -/
def fmt1f (q : ℚ) : String :=
  let n := rine (q * 10)
  let sign := if n < 0 then "-" else ""
  let m := n.natAbs
  sign ++ toString (m / 10) ++ "." ++ toString (m % 10)

/-- Python `x or default` for an optional string: `None` and the empty
string are falsy. -/
def pyOrStr (o : Option String) (dflt : String) : String :=
  match o with
  | some s => if s = "" then dflt else s
  | none => dflt

/-! ## Link-budget engine (`opm_calculator.py`) -/

/-- `OpticalParameters` dataclass.  The `wavelength` / `fiber_type` enums are
kept as their string values, which is all the calculator reads of them. -/
structure OpticalParameters where
  tx_power : ℚ
  rx_sensitivity : ℚ
  wavelength : String := "1550nm"
  fiber_type : String := "single_mode"
deriving DecidableEq

/-- `NetworkSegment` dataclass. -/
structure NetworkSegment where
  fiber_length_km : ℚ
  splice_count : ℤ
  connector_count : ℤ
  name : String := "Segment"
deriving DecidableEq

/-- `LossParameters` dataclass with its source defaults. -/
structure LossParameters where
  fiber_loss_per_km : ℚ := 0.35
  splice_loss : ℚ := 0.1
  connector_loss : ℚ := 0.5
  safety_margin : ℚ := 3.0
deriving DecidableEq

/-- The `details` dict assembled by `calculate_power_budget`. -/
structure CalculationDetails where
  segment_name : String
  tx_power_dbm : ℚ
  rx_sensitivity_dbm : ℚ
  wavelength : String
  fiber_type : String
  fiber_loss_db : ℚ
  splice_loss_db : ℚ
  connector_loss_db : ℚ
  total_loss_db : ℚ
  fiber_length_km : ℚ
  fiber_length_m : ℚ
  splice_count : ℤ
  connector_count : ℤ
  safety_margin_db : ℚ
  loss_per_km_db : ℚ
deriving DecidableEq

/-- `CalculationResult` dataclass. -/
structure CalculationResult where
  power_budget : ℚ
  total_loss : ℚ
  available_margin : ℚ
  status : String
  quality_score : ℚ
  details : CalculationDetails
deriving DecidableEq

/-- `OPMCalculator._determine_status`. -/
def determine_status (available_margin : ℚ) : String :=
  if available_margin ≥ 3.0 then "OK"
  else if available_margin ≥ 0 then "Warning"
  else "Critical"

/-- `OPMCalculator._calculate_quality_score`. -/
def calculate_quality_score (power_budget total_loss available_margin : ℚ) : ℚ :=
  if power_budget ≤ 0 then 0.0
  else
    let loss_efficiency := max 0 (1 - total_loss / power_budget) * 40
    let margin_adequacy := min 60 (max 0 (available_margin / 10 * 60))
    let total_score := loss_efficiency + margin_adequacy
    max 0 (min 100 total_score)

/-- `OPMCalculator.calculate_power_budget`.  Every arithmetic operation in
the source body is total on floats, so this is a total function. -/
def calculate_power_budget (optical_params : OpticalParameters)
    (loss_params : LossParameters) (segment : NetworkSegment) : CalculationResult :=
  let power_budget := optical_params.tx_power - optical_params.rx_sensitivity
  let fiber_loss := segment.fiber_length_km * loss_params.fiber_loss_per_km
  let splice_loss := (segment.splice_count : ℚ) * loss_params.splice_loss
  let connector_loss := (segment.connector_count : ℚ) * loss_params.connector_loss
  let total_loss := fiber_loss + splice_loss + connector_loss
  let available_margin := power_budget - total_loss - loss_params.safety_margin
  let status := determine_status available_margin
  let quality_score := calculate_quality_score power_budget total_loss available_margin
  { power_budget := round2 power_budget
    total_loss := round2 total_loss
    available_margin := round2 available_margin
    status := status
    quality_score := round2 quality_score
    details :=
      { segment_name := segment.name
        tx_power_dbm := optical_params.tx_power
        rx_sensitivity_dbm := optical_params.rx_sensitivity
        wavelength := optical_params.wavelength
        fiber_type := optical_params.fiber_type
        fiber_loss_db := round2 fiber_loss
        splice_loss_db := round2 splice_loss
        connector_loss_db := round2 connector_loss
        total_loss_db := round2 total_loss
        fiber_length_km := segment.fiber_length_km
        fiber_length_m := segment.fiber_length_km * 1000
        splice_count := segment.splice_count
        connector_count := segment.connector_count
        safety_margin_db := loss_params.safety_margin
        loss_per_km_db := loss_params.fiber_loss_per_km } }

/-- `OPMCalculator.calculate_max_distance`.  The source divides
`available_for_fiber / loss_params.fiber_loss_per_km` without a guard;
in Python a float division by `0.0` raises `ZeroDivisionError`, embedded
here as `none`. -/
def calculate_max_distance (optical_params : OpticalParameters)
    (loss_params : LossParameters) (splice_count connector_count : ℤ) : Option ℚ :=
  let power_budget := optical_params.tx_power - optical_params.rx_sensitivity
  let available_for_fiber :=
    power_budget
      - (splice_count : ℚ) * loss_params.splice_loss
      - (connector_count : ℚ) * loss_params.connector_loss
      - loss_params.safety_margin
  if loss_params.fiber_loss_per_km = 0 then none
  else some (max 0 (available_for_fiber / loss_params.fiber_loss_per_km))

/-- `OPMCalculator.calculate_required_tx_power`. -/
def calculate_required_tx_power (rx_sensitivity : ℚ) (segment : NetworkSegment)
    (loss_params : LossParameters) : ℚ :=
  let fiber_loss := segment.fiber_length_km * loss_params.fiber_loss_per_km
  let splice_loss := (segment.splice_count : ℚ) * loss_params.splice_loss
  let connector_loss := (segment.connector_count : ℚ) * loss_params.connector_loss
  let total_loss := fiber_loss + splice_loss + connector_loss
  round2 (rx_sensitivity + total_loss + loss_params.safety_margin)

/-- `OPMCalculator.analyze_multiple_segments`. -/
def analyze_multiple_segments (optical_params : OpticalParameters)
    (loss_params : LossParameters) (segments : List NetworkSegment) :
    List CalculationResult :=
  segments.map (calculate_power_budget optical_params loss_params)

/-! ## Claims about the link-budget engine (C4, C5, C6, C7) -/

/-- The optical parameters of the spec's example scenario 1. -/
def exampleOptical : OpticalParameters := { tx_power := 3.0, rx_sensitivity := -28.0 }

/-- The default loss parameters (0.35 / 0.1 / 0.5 / 3.0). -/
def defaultLoss : LossParameters := {}

/-- The 10 km / 5 splices / 2 connectors segment of example scenario 1. -/
def exampleSegment : NetworkSegment :=
  { fiber_length_km := 10, splice_count := 5, connector_count := 2 }

/-- C4, counterexample: on the example input (budget 31 dB, total loss 5 dB,
margin 23 dB) the quality score is 93.55, not the claimed 100: the loss
efficiency component is (1 − 5/31) × 40 ≈ 33.55, so no clamping to 100
occurs. -/
theorem power_budget_example_quality_cex :
    (calculate_power_budget exampleOptical defaultLoss exampleSegment).quality_score = 93.55 ∧
    (calculate_power_budget exampleOptical defaultLoss exampleSegment).quality_score ≠ 100 := by
  norm_num [calculate_power_budget, calculate_quality_score, round2, rine,
    exampleOptical, defaultLoss, exampleSegment, min_def, max_def]

/-- C4, amended: for tx_power 3.0 dBm, rx_sensitivity −28.0 dBm, a 10 km
segment with 5 splices and 2 connectors and default loss parameters,
`calculate_power_budget` returns total_loss 5.0, available_margin 23.0,
status "OK" and quality_score 93.55. -/
theorem power_budget_example_amended :
    (calculate_power_budget exampleOptical defaultLoss exampleSegment).total_loss = 5.0 ∧
    (calculate_power_budget exampleOptical defaultLoss exampleSegment).available_margin = 23.0 ∧
    (calculate_power_budget exampleOptical defaultLoss exampleSegment).status = "OK" ∧
    (calculate_power_budget exampleOptical defaultLoss exampleSegment).quality_score = 93.55 := by
  norm_num [calculate_power_budget, calculate_quality_score, determine_status,
    round2, rine, exampleOptical, defaultLoss, exampleSegment, min_def, max_def]

/-- C5, counterexample: with fiber_loss_per_km = 0 (an in-range, non-negative
coefficient) `calculate_max_distance` divides by zero and raises
`ZeroDivisionError` (embedded as `none`): the division is not guarded. -/
theorem max_distance_zero_loss_cex :
    calculate_max_distance exampleOptical
      { fiber_loss_per_km := 0, splice_loss := 0.1, connector_loss := 0.5,
        safety_margin := 3.0 } 0 2 = none := by
  simp [calculate_max_distance]

/-- C5, amended: `calculate_power_budget` and `calculate_required_tx_power`
are total (they are embedded as plain functions: no operation in their
bodies can raise), and `calculate_max_distance` returns a value exactly when
fiber_loss_per_km ≠ 0 — so totality over the in-range inputs requires
fiber_loss_per_km > 0, not merely ≥ 0. -/
theorem max_distance_totality_amended (op : OpticalParameters)
    (l : LossParameters) (sc cc : ℤ) :
    (calculate_max_distance op l sc cc).isSome = true ↔ l.fiber_loss_per_km ≠ 0 := by
  by_cases h : l.fiber_loss_per_km = 0 <;> simp [calculate_max_distance, h]

/-- C6: for fixed power_budget and total_loss the quality score is
monotonically non-decreasing in available_margin, and it always lies in
[0, 100]. -/
theorem quality_score_monotone_bounded (pb tl am am' : ℚ) :
    (am ≤ am' → calculate_quality_score pb tl am ≤ calculate_quality_score pb tl am') ∧
    (0 ≤ calculate_quality_score pb tl am ∧ calculate_quality_score pb tl am ≤ 100) := by
  unfold calculate_quality_score
  by_cases hpb : pb ≤ 0
  · simp only [if_pos hpb]
    norm_num
  · simp only [if_neg hpb]
    refine ⟨fun hm => ?_, le_max_left _ _,
      max_le (by norm_num) (min_le_left _ _)⟩
    have key : am / 10 * 60 ≤ am' / 10 * 60 :=
      mul_le_mul_of_nonneg_right
        ((div_le_div_iff_of_pos_right (by norm_num)).mpr hm) (by norm_num)
    exact max_le_max le_rfl (min_le_min le_rfl
      (add_le_add le_rfl (min_le_min le_rfl (max_le_max le_rfl key))))

/-- Witness for C6 at a concrete input. -/
theorem quality_score_monotone_bounded_witness :
    (calculate_quality_score 31 5 23 ≤ calculate_quality_score 31 5 24) ∧
    (0 ≤ calculate_quality_score 31 5 23 ∧ calculate_quality_score 31 5 23 ≤ 100) :=
  ⟨(quality_score_monotone_bounded 31 5 23 24).1 (by norm_num),
   (quality_score_monotone_bounded 31 5 23 24).2⟩

/-- C7, counterexample: when the fixed losses already exceed the power
budget the returned distance is floored at 0, and plugging it back into
`calculate_power_budget` yields available_margin −4, not ≈ 0: with
tx_power = rx_sensitivity = 0 and default losses (2 connectors, no splices)
the margin is 0 − 1 − 3 = −4. -/
theorem max_distance_roundtrip_cex :
    calculate_max_distance { tx_power := 0, rx_sensitivity := 0 } defaultLoss 0 2 = some 0 ∧
    (calculate_power_budget { tx_power := 0, rx_sensitivity := 0 } defaultLoss
      { fiber_length_km := 0, splice_count := 0, connector_count := 2 }).available_margin = -4 := by
  constructor
  · norm_num [calculate_max_distance, defaultLoss, max_def]
  · norm_num [calculate_power_budget, round2, rine, defaultLoss]

/-- C7, amended: the returned distance is never negative, and whenever
fiber_loss_per_km > 0 and the power budget net of fixed losses and safety
margin is non-negative, plugging the returned distance back into
`calculate_power_budget` (same splice and connector counts) yields an
available_margin of exactly 0. -/
theorem max_distance_roundtrip_amended (op : OpticalParameters)
    (l : LossParameters) (sc cc : ℤ) :
    (∀ d, calculate_max_distance op l sc cc = some d → 0 ≤ d) ∧
    (0 < l.fiber_loss_per_km →
      0 ≤ op.tx_power - op.rx_sensitivity - (sc : ℚ) * l.splice_loss
          - (cc : ℚ) * l.connector_loss - l.safety_margin →
      ∀ d, calculate_max_distance op l sc cc = some d →
        (calculate_power_budget op l
          { fiber_length_km := d, splice_count := sc,
            connector_count := cc }).available_margin = 0) := by
  constructor
  · intro d hd
    by_cases hf : l.fiber_loss_per_km = 0
    · simp [calculate_max_distance, hf] at hd
    · simp [calculate_max_distance, hf] at hd
      rw [← hd]
      exact le_max_left _ _
  · intro hf haf d hd
    have hf0 : l.fiber_loss_per_km ≠ 0 := ne_of_gt hf
    simp [calculate_max_distance, hf0] at hd
    have hmax : max 0 ((op.tx_power - op.rx_sensitivity - (sc : ℚ) * l.splice_loss
        - (cc : ℚ) * l.connector_loss - l.safety_margin) / l.fiber_loss_per_km)
        = (op.tx_power - op.rx_sensitivity - (sc : ℚ) * l.splice_loss
        - (cc : ℚ) * l.connector_loss - l.safety_margin) / l.fiber_loss_per_km :=
      max_eq_right (div_nonneg haf (le_of_lt hf))
    rw [hmax] at hd
    have hd' : d * l.fiber_loss_per_km
        = op.tx_power - op.rx_sensitivity - (sc : ℚ) * l.splice_loss
          - (cc : ℚ) * l.connector_loss - l.safety_margin := by
      rw [← hd]
      field_simp
    unfold calculate_power_budget
    dsimp only
    rw [hd']
    ring_nf
    norm_num [round2, rine]

/-- Witness for C7 at a concrete input: budget 31 dB, default losses,
5 splices, 2 connectors, max distance 530/7 km, round-trip margin 0. -/
theorem max_distance_roundtrip_amended_witness :
    (calculate_power_budget exampleOptical defaultLoss
      { fiber_length_km := 530 / 7, splice_count := 5,
        connector_count := 2 }).available_margin = 0 :=
  (max_distance_roundtrip_amended exampleOptical defaultLoss 5 2).2
    (by norm_num [defaultLoss])
    (by norm_num [exampleOptical, defaultLoss])
    (530 / 7)
    (by norm_num [calculate_max_distance, exampleOptical, defaultLoss, max_def])

/-! ## Reconciliation engine (`comparison_service.py`)

The comparator receives each snapshot as a dict with a `cables` list whose
entries carry the keys `name`, `fiber_length_km`, `construction_status` and
`specification` (built by the compare endpoint); a snapshot is embedded as
that list.  Python dict lookups built by successive assignment keep
first-insertion key order with last-assigned values, modelled by
`dedupFirst` / `dictGet` / `opmGet` below. -/

/-- One entry of the `cables` list handed to the comparator. -/
structure CableDict where
  name : String
  fiber_length_km : ℚ
  construction_status : String
  specification : String
deriving DecidableEq

/-- `OPMMeasurement` dataclass from `csv_parser.py` (the comparator reads
`cable_id` and `loss_db`). -/
structure OPMMeasurement where
  cable_id : String
  segment_name : String
  measurement_date : Option String
  tx_power_dbm : ℚ
  rx_power_dbm : ℚ
  loss_db : ℚ
  length_km : ℚ
  wavelength_nm : ℤ
  status : String
  remarks : Option String
  measured_by : Option String
deriving DecidableEq

/-- `ComparisonResult` dataclass. -/
structure ComparisonResult where
  cable_id : String
  planned_length_km : ℚ
  built_length_km : ℚ
  length_variance_km : ℚ
  length_variance_pct : ℚ
  planned_status : String
  built_status : String
  status_match : Bool
  planned_loss_db : Option ℚ
  measured_loss_db : Option ℚ
  loss_variance_db : Option ℚ
  compliance_status : String
  remarks : List String
deriving DecidableEq

/-- One entry of the discrepancy list built by `_identify_discrepancies`. -/
structure Discrepancy where
  cable_id : String
  severity : String
  length_variance_pct : ℚ
  remarks : List String
deriving DecidableEq

/-- The summary dict of `_generate_summary` (returned only when the
comparison list is non-empty; the empty dict is `none`). -/
structure Summary where
  total_cables : ℕ
  compliant : ℕ
  minor_deviations : ℕ
  major_deviations : ℕ
  compliance_rate : ℚ
  total_planned_length_km : ℚ
  total_built_length_km : ℚ
  overall_length_variance_km : ℚ
  overall_length_variance_pct : ℚ
deriving DecidableEq

/-- `NetworkComparison` dataclass. -/
structure NetworkComparison where
  cable_comparisons : List ComparisonResult
  summary : Option Summary
  discrepancies : List Discrepancy
  recommendations : List String
deriving DecidableEq

/-- Class constant `LENGTH_TOLERANCE_PCT = 5.0`. -/
def LENGTH_TOLERANCE_PCT : ℚ := 5

/-- Class constant `LOSS_TOLERANCE_DB = 0.5`. -/
def LOSS_TOLERANCE_DB : ℚ := 0.5

/-- Key order of a Python dict built by one assignment per list element:
first occurrence of each key, in list order. -/
def dedupFirstAux (seen : List String) : List String → List String
  | [] => []
  | x :: xs =>
    if seen.contains x then dedupFirstAux seen xs
    else x :: dedupFirstAux (x :: seen) xs

/-- First occurrences, in order (Python dict key order). -/
def dedupFirst (l : List String) : List String :=
  dedupFirstAux [] l

/-- Key order of the cable dict `{c['name']: c for c in cables}`. -/
def dictKeys (l : List CableDict) : List String :=
  dedupFirst (l.map (·.name))

/-- Value lookup in that dict: the last list element with the given name
(later assignments overwrite earlier ones). -/
def dictGet (l : List CableDict) (n : String) : Option CableDict :=
  l.reverse.find? (fun c => c.name == n)

/-- Lookup in the OPM dict `{m.cable_id: m for m in opm_measurements}`;
`none` or the empty list is falsy in the source, so no dict is built and
every lookup misses. -/
def opmGet (ms : Option (List OPMMeasurement)) (n : String) : Option OPMMeasurement :=
  match ms with
  | none => none
  | some l => l.reverse.find? (fun m => m.cable_id == n)

/-- `AsPlannedVsAsBuiltComparator._compare_cable`.  `planned_loss` is the
literal `None` of the source ("Can be calculated from planned parameters");
the inner tolerance test translates Python's `planned_loss and
abs(measured_loss - planned_loss) <= self.LOSS_TOLERANCE_DB` including the
float falsiness of `0.0`. -/
def compare_cable (cable_name : String) (planned : CableDict)
    (built : Option CableDict) (opm : Option OPMMeasurement) : ComparisonResult :=
  let planned_length := planned.fiber_length_km
  let planned_status := planned.construction_status
  let planned_loss : Option ℚ := none
  match built with
  | none =>
    { cable_id := cable_name
      planned_length_km := planned_length
      built_length_km := 0
      length_variance_km := -planned_length
      length_variance_pct := -100
      planned_status := planned_status
      built_status := "Not Built"
      status_match := false
      planned_loss_db := planned_loss
      measured_loss_db := none
      loss_variance_db := none
      compliance_status := "Major Deviation"
      remarks := ["Cable planned but not built"] }
  | some b =>
    let built_length := b.fiber_length_km
    let built_status := b.construction_status
    let length_variance_km := built_length - planned_length
    let length_variance_pct :=
      if planned_length > 0 then length_variance_km / planned_length * 100 else 0
    let status_match := pyLower planned_status == pyLower built_status
    let measured_loss := opm.map (·.loss_db)
    let loss_variance : Option ℚ := none
    let cr : String × List String :=
      if |length_variance_pct| ≤ LENGTH_TOLERANCE_PCT then
        match measured_loss with
        | none => ("Compliant", [])
        | some m =>
          match planned_loss with
          | some p =>
            if p ≠ 0 ∧ |m - p| ≤ LOSS_TOLERANCE_DB then ("Compliant", [])
            else ("Minor Deviation", ["Loss variance detected"])
          | none => ("Minor Deviation", ["Loss variance detected"])
      else if |length_variance_pct| ≤ LENGTH_TOLERANCE_PCT * 2 then
        ("Minor Deviation", ["Length variance: " ++ fmt1f length_variance_pct ++ "%"])
      else
        ("Major Deviation", ["Significant length variance: " ++ fmt1f length_variance_pct ++ "%"])
    let remarks := cr.2 ++
      (if status_match then []
       else ["Status mismatch: " ++ planned_status ++ " → " ++ built_status])
    { cable_id := cable_name
      planned_length_km := planned_length
      built_length_km := built_length
      length_variance_km := length_variance_km
      length_variance_pct := length_variance_pct
      planned_status := planned_status
      built_status := built_status
      status_match := status_match
      planned_loss_db := planned_loss
      measured_loss_db := measured_loss
      loss_variance_db := loss_variance
      compliance_status := cr.1
      remarks := remarks }

/-- `AsPlannedVsAsBuiltComparator._create_unplanned_cable_result`. -/
def create_unplanned_cable_result (cable_name : String) (built : CableDict)
    (opm : Option OPMMeasurement) : ComparisonResult :=
  let built_length := built.fiber_length_km
  let built_status := built.construction_status
  let measured_loss := opm.map (·.loss_db)
  { cable_id := cable_name
    planned_length_km := 0
    built_length_km := built_length
    length_variance_km := built_length
    length_variance_pct := 100
    planned_status := "Not Planned"
    built_status := built_status
    status_match := false
    planned_loss_db := none
    measured_loss_db := measured_loss
    loss_variance_db := none
    compliance_status := "Major Deviation"
    remarks := ["Cable built but not in original plan"] }

/-- `AsPlannedVsAsBuiltComparator._generate_summary`. -/
def generate_summary (comparisons : List ComparisonResult) : Option Summary :=
  let total := comparisons.length
  if total = 0 then none
  else
    let compliant := comparisons.countP (fun c => c.compliance_status == "Compliant")
    let minor_dev := comparisons.countP (fun c => c.compliance_status == "Minor Deviation")
    let major_dev := comparisons.countP (fun c => c.compliance_status == "Major Deviation")
    let total_planned_length := (comparisons.map (·.planned_length_km)).sum
    let total_built_length := (comparisons.map (·.built_length_km)).sum
    some
      { total_cables := total
        compliant := compliant
        minor_deviations := minor_dev
        major_deviations := major_dev
        compliance_rate := round2 ((compliant : ℚ) / (total : ℚ) * 100)
        total_planned_length_km := round2 total_planned_length
        total_built_length_km := round2 total_built_length
        overall_length_variance_km := round2 (total_built_length - total_planned_length)
        overall_length_variance_pct :=
          if total_planned_length > 0 then
            round2 ((total_built_length - total_planned_length) / total_planned_length * 100)
          else 0 }

/-- Ascending insertion by key that keeps an earlier element in front of
every later element with an equal key: together with `sortByKey` this is a
stable ascending sort, the semantics of Python's `list.sort(key=...)`. -/
def insertByKey {α : Type} (key : α → ℕ) (x : α) : List α → List α
  | [] => [x]
  | y :: ys => if key y < key x then y :: insertByKey key x ys else x :: y :: ys

/-- Stable ascending sort by key (Python `list.sort(key=...)`). -/
def sortByKey {α : Type} (key : α → ℕ) : List α → List α
  | [] => []
  | x :: xs => insertByKey key x (sortByKey key xs)

/-- The sort key `severity_order.get(x['severity'], 2)` with
`severity_order = {'Major Deviation': 0, 'Minor Deviation': 1}`. -/
def severity_order (s : String) : ℕ :=
  if s == "Major Deviation" then 0
  else if s == "Minor Deviation" then 1
  else 2

/-- `AsPlannedVsAsBuiltComparator._identify_discrepancies`. -/
def identify_discrepancies (comparisons : List ComparisonResult) : List Discrepancy :=
  let discrepancies :=
    (comparisons.filter (fun c =>
        c.compliance_status == "Minor Deviation" ||
        c.compliance_status == "Major Deviation")).map
      (fun c =>
        { cable_id := c.cable_id
          severity := c.compliance_status
          length_variance_pct := c.length_variance_pct
          remarks := c.remarks })
  sortByKey (fun d => severity_order d.severity) discrepancies

/-- `AsPlannedVsAsBuiltComparator._generate_recommendations` (the summary
reads use `.get(key, 0)`, so the empty summary contributes zeros). -/
def generate_recommendations (comparisons : List ComparisonResult)
    (summary : Option Summary) : List String :=
  let major_dev := match summary with | some s => s.major_deviations | none => 0
  let minor_dev := match summary with | some s => s.minor_deviations | none => 0
  let rate := match summary with | some s => s.compliance_rate | none => 0
  let r1 : List String :=
    if major_dev > 0 then
      ["🔴 Critical: Investigate major deviations immediately",
       "Review cables with >10% length variance"]
    else []
  let r2 : List String :=
    if minor_dev > 0 then
      ["🟡 Warning: Minor deviations detected",
       "Document reasons for length variances"]
    else []
  let r3 : List String :=
    if rate ≥ 95 then ["✅ Excellent: Network implementation highly compliant with plan"]
    else if rate ≥ 85 then ["✅ Good: Network implementation mostly compliant"]
    else ["⚠️ Review: Multiple compliance issues detected"]
  let not_built := comparisons.filter (fun c => c.built_status == "Not Built")
  let r4 : List String :=
    if not_built.isEmpty then []
    else ["📋 " ++ toString not_built.length ++ " planned cables not yet built"]
  let unplanned := comparisons.filter (fun c => c.planned_status == "Not Planned")
  let r5 : List String :=
    if unplanned.isEmpty then []
    else ["📋 " ++ toString unplanned.length ++ " unplanned cables built - update design documentation"]
  r1 ++ r2 ++ r3 ++ r4 ++ r5

/-- `AsPlannedVsAsBuiltComparator.compare_networks`. -/
def compare_networks (planned_data built_data : List CableDict)
    (opm_measurements : Option (List OPMMeasurement)) : NetworkComparison :=
  let matchedPart :=
    (dictKeys planned_data).filterMap (fun n =>
      (dictGet planned_data n).map (fun pc =>
        compare_cable n pc (dictGet built_data n) (opmGet opm_measurements n)))
  let unplannedPart :=
    ((dictKeys built_data).filter
        (fun n => !((planned_data.map (·.name)).contains n))).filterMap (fun n =>
      (dictGet built_data n).map (fun bc =>
        create_unplanned_cable_result n bc (opmGet opm_measurements n)))
  let cable_comparisons := matchedPart ++ unplannedPart
  { cable_comparisons := cable_comparisons
    summary := generate_summary cable_comparisons
    discrepancies := identify_discrepancies cable_comparisons
    recommendations := generate_recommendations cable_comparisons (generate_summary cable_comparisons) }

/-! ## Claims about the reconciliation engine (C2, C8, C9, C10) -/

/-- A planned (and identically built) cable used in the C2 instances. -/
def c2Planned : CableDict :=
  { name := "C1", fiber_length_km := 10, construction_status := "In Service",
    specification := "ADSS 24C" }

/-- An OPM measurement for that cable with a small 0.2 dB loss. -/
def c2Opm : OPMMeasurement :=
  { cable_id := "C1", segment_name := "SEG-1", measurement_date := none,
    tx_power_dbm := 3, rx_power_dbm := -17, loss_db := 0.2, length_km := 10,
    wavelength_nm := 1550, status := "Pass", remarks := none, measured_by := none }

/-- C2, counterexample: a matched pair with identical lengths (variance 0%)
and a measurement record is classified Minor Deviation even though no loss
variance exceeds 0.5 dB — the planned loss is never set (`planned_loss_db =
none`), so the within-tolerance branch cannot fire and any present
measurement forces Minor Deviation. -/
theorem compare_cable_measured_forces_minor_cex :
    (compare_cable "C1" c2Planned (some c2Planned) (some c2Opm)).compliance_status
        = "Minor Deviation" ∧
    (compare_cable "C1" c2Planned (some c2Planned) (some c2Opm)).measured_loss_db
        = some 0.2 ∧
    (compare_cable "C1" c2Planned (some c2Planned) (some c2Opm)).planned_loss_db
        = none ∧
    (compare_cable "C1" c2Planned (some c2Planned) (some c2Opm)).loss_variance_db
        = none := by
  norm_num [compare_cable, c2Planned, c2Opm, LENGTH_TOLERANCE_PCT, pyLower]

/-- C2, amended: for a matched pair whose absolute length variance
percentage is at most the 5% tolerance, the comparator classifies the cable
Compliant exactly when no measurement record exists for it, and whenever a
measurement exists it classifies it Minor Deviation with the loss-variance
remark (the planned loss is always unset, so the 0.5 dB comparison never
succeeds). -/
theorem compare_cable_compliance_amended (cable_name : String)
    (pc bc : CableDict) (opm : Option OPMMeasurement)
    (h : |(compare_cable cable_name pc (some bc) opm).length_variance_pct|
        ≤ LENGTH_TOLERANCE_PCT) :
    (opm = none →
      (compare_cable cable_name pc (some bc) opm).compliance_status = "Compliant") ∧
    (∀ m, opm = some m →
      (compare_cable cable_name pc (some bc) opm).compliance_status = "Minor Deviation" ∧
      "Loss variance detected" ∈ (compare_cable cable_name pc (some bc) opm).remarks) := by
  simp only [compare_cable] at h ⊢
  constructor
  · rintro rfl
    simp only [Option.map_none']
    rw [if_pos h]
  · rintro m rfl
    simp only [Option.map_some']
    rw [if_pos h]
    exact ⟨rfl, List.mem_append_left _ (List.mem_singleton.mpr rfl)⟩

/-- Witness for C2 at a concrete input (variance 0%, measurement present). -/
theorem compare_cable_compliance_amended_witness :
    (compare_cable "C1" c2Planned (some c2Planned) (some c2Opm)).compliance_status
        = "Minor Deviation" ∧
    "Loss variance detected" ∈
      (compare_cable "C1" c2Planned (some c2Planned) (some c2Opm)).remarks :=
  (compare_cable_compliance_amended "C1" c2Planned c2Planned (some c2Opm)
      (by norm_num [compare_cable, c2Planned, LENGTH_TOLERANCE_PCT])).2
    c2Opm rfl

/-- Both optional loss fields of any `_compare_cable` result are `None`. -/
theorem compare_cable_loss_none (n : String) (pc : CableDict)
    (b : Option CableDict) (o : Option OPMMeasurement) :
    (compare_cable n pc b o).planned_loss_db = none ∧
    (compare_cable n pc b o).loss_variance_db = none := by
  cases b <;> exact ⟨rfl, rfl⟩

/-- C10: every comparison result produced by `compare_networks` has
`planned_loss_db = None` and `loss_variance_db = None` — no code path
assigns a planned loss or computes a loss variance. -/
theorem comparison_loss_fields_always_none (pl bl : List CableDict)
    (ms : Option (List OPMMeasurement)) :
    ∀ r ∈ (compare_networks pl bl ms).cable_comparisons,
      r.planned_loss_db = none ∧ r.loss_variance_db = none := by
  intro r hr
  simp only [compare_networks, List.mem_append, List.mem_filterMap] at hr
  rcases hr with ⟨n, hn, hsome⟩ | ⟨n, hn, hsome⟩
  · rcases Option.map_eq_some'.mp hsome with ⟨pc, hpc, rfl⟩
    exact compare_cable_loss_none _ _ _ _
  · rcases Option.map_eq_some'.mp hsome with ⟨bc, hbc, rfl⟩
    exact ⟨rfl, rfl⟩

/-- A planned cable for the C10 witness. -/
def c10Planned : CableDict :=
  { name := "A", fiber_length_km := 5, construction_status := "Planned",
    specification := "ADSS 12C" }

/-- Witness for C10 at a concrete input. -/
theorem comparison_loss_fields_always_none_witness :
    (compare_cable "A" c10Planned none none).planned_loss_db = none ∧
    (compare_cable "A" c10Planned none none).loss_variance_db = none :=
  comparison_loss_fields_always_none [c10Planned] [] none _ (by decide)

/-- Membership in `dedupFirstAux`: an element is kept iff it occurs in the
remaining list and was not already seen. -/
theorem mem_dedupFirstAux (y : String) :
    ∀ (l seen : List String), y ∈ dedupFirstAux seen l ↔ y ∈ l ∧ ¬ y ∈ seen := by
  intro l
  induction l with
  | nil => intro seen; simp [dedupFirstAux]
  | cons x xs ih =>
    intro seen
    by_cases hx : seen.contains x
    · have hx' : x ∈ seen := by simpa using hx
      simp only [dedupFirstAux, if_pos hx, ih, List.mem_cons]
      constructor
      · rintro ⟨hy, hns⟩; exact ⟨Or.inr hy, hns⟩
      · rintro ⟨hy | hy, hns⟩
        · exact absurd (hy ▸ hx') hns
        · exact ⟨hy, hns⟩
    · have hx' : ¬ x ∈ seen := by simpa using hx
      simp only [dedupFirstAux, if_neg hx, List.mem_cons, ih]
      by_cases hyx : y = x
      · subst hyx; tauto
      · tauto

/-- Membership in `dedupFirst` is membership in the original list. -/
theorem mem_dedupFirst (y : String) (l : List String) :
    y ∈ dedupFirst l ↔ y ∈ l := by
  simp [dedupFirst, mem_dedupFirstAux]

/-- `dedupFirstAux` produces no duplicates. -/
theorem nodup_dedupFirstAux :
    ∀ (l seen : List String), (dedupFirstAux seen l).Nodup := by
  intro l
  induction l with
  | nil => intro seen; simp [dedupFirstAux]
  | cons x xs ih =>
    intro seen
    by_cases hx : seen.contains x
    · rw [dedupFirstAux, if_pos hx]
      exact ih seen
    · rw [dedupFirstAux, if_neg hx]
      refine List.nodup_cons.mpr ⟨?_, ih (x :: seen)⟩
      intro hmem
      exact ((mem_dedupFirstAux x xs (x :: seen)).mp hmem).2 (List.mem_cons_self x seen)

/-- `dictKeys` is duplicate-free. -/
theorem nodup_dictKeys (l : List CableDict) : (dictKeys l).Nodup :=
  nodup_dedupFirstAux _ _

/-- Membership in `dictKeys` is membership among the cable names. -/
theorem mem_dictKeys (n : String) (l : List CableDict) :
    n ∈ dictKeys l ↔ n ∈ l.map (·.name) :=
  mem_dedupFirst _ _

/-- A name that occurs among the cable names has a dict value. -/
theorem dictGet_isSome {l : List CableDict} {n : String}
    (h : n ∈ l.map (·.name)) : ∃ c, dictGet l n = some c := by
  rcases List.mem_map.mp h with ⟨c, hc, rfl⟩
  have hsome : (l.reverse.find? (fun c2 => c2.name == c.name)).isSome := by
    rw [List.find?_isSome]
    exact ⟨c, List.mem_reverse.mpr hc, by simp⟩
  exact Option.isSome_iff_exists.mp hsome

/-- The `cable_id` of a `_compare_cable` result is the looked-up name. -/
theorem compare_cable_cable_id (n : String) (pc : CableDict)
    (b : Option CableDict) (o : Option OPMMeasurement) :
    (compare_cable n pc b o).cable_id = n := by
  cases b <;> rfl

/-- Mapping `cable_id` over a block of results built from a key list
recovers the key list, provided every key has a dict value. -/
theorem map_cid_filterMap (get : String → Option CableDict)
    (f : String → CableDict → ComparisonResult)
    (hcid : ∀ n c, (f n c).cable_id = n) :
    ∀ (keys : List String), (∀ n ∈ keys, ∃ c, get n = some c) →
      ((keys.filterMap (fun n => (get n).map (f n))).map (·.cable_id)) = keys := by
  intro keys
  induction keys with
  | nil => intro _; simp
  | cons n ns ih =>
    intro h
    rcases h n (List.mem_cons_self n ns) with ⟨c, hc⟩
    have ih' := ih (fun m hm => h m (List.mem_cons_of_mem _ hm))
    simp [List.filterMap_cons, hc, hcid, ih']

/-- The `cable_id` sequence of `compare_networks`: the planned dict keys
followed by the built dict keys that are not planned names. -/
theorem compare_networks_cids (pl bl : List CableDict)
    (ms : Option (List OPMMeasurement)) :
    ((compare_networks pl bl ms).cable_comparisons.map (·.cable_id))
      = dictKeys pl
        ++ (dictKeys bl).filter (fun n => !((pl.map (·.name)).contains n)) := by
  simp only [compare_networks]
  rw [List.map_append]
  congr 1
  · exact map_cid_filterMap (dictGet pl) _ (fun n c => compare_cable_cable_id n c _ _) _
      (fun n hn => dictGet_isSome ((mem_dictKeys n pl).mp hn))
  · exact map_cid_filterMap (dictGet bl) _ (fun n c => rfl) _
      (fun n hn =>
        dictGet_isSome ((mem_dictKeys n bl).mp (List.mem_of_mem_filter hn)))

/-- C8: every cable name occurring in either snapshot heads exactly one
comparison result of `compare_networks`, and a name absent from both
snapshots heads none. -/
theorem compare_networks_coverage_exact (pl bl : List CableDict)
    (ms : Option (List OPMMeasurement)) (n : String) :
    ((n ∈ pl.map (·.name) ∨ n ∈ bl.map (·.name)) →
      ((compare_networks pl bl ms).cable_comparisons.countP
        (fun r => r.cable_id == n)) = 1) ∧
    ((¬ n ∈ pl.map (·.name) ∧ ¬ n ∈ bl.map (·.name)) →
      ((compare_networks pl bl ms).cable_comparisons.countP
        (fun r => r.cable_id == n)) = 0) := by
  have hcount : ((compare_networks pl bl ms).cable_comparisons.countP
      (fun r => r.cable_id == n))
      = List.count n (dictKeys pl
          ++ (dictKeys bl).filter (fun m => !((pl.map (·.name)).contains m))) := by
    rw [← compare_networks_cids pl bl ms]
    simp [List.count, List.countP_map, Function.comp_def]
  have hnodupP := nodup_dictKeys pl
  have hnodupB := (nodup_dictKeys bl).filter
    (p := fun m => !((pl.map (·.name)).contains m))
  rw [hcount, List.count_append]
  constructor
  · intro h
    by_cases hp : n ∈ pl.map (·.name)
    · have h1 : List.count n (dictKeys pl) = 1 :=
        List.count_eq_one_of_mem hnodupP ((mem_dictKeys n pl).mpr hp)
      have h2 : List.count n ((dictKeys bl).filter
          (fun m => !((pl.map (·.name)).contains m))) = 0 := by
        apply List.count_eq_zero_of_not_mem
        intro hmem
        have hcont := (List.mem_filter.mp hmem).2
        have hnm : ¬ n ∈ pl.map (·.name) := by simpa using hcont
        exact hnm hp
      omega
    · have hb : n ∈ bl.map (·.name) := h.resolve_left hp
      have h1 : List.count n (dictKeys pl) = 0 :=
        List.count_eq_zero_of_not_mem (fun hmem => hp ((mem_dictKeys n pl).mp hmem))
      have h2 : List.count n ((dictKeys bl).filter
          (fun m => !((pl.map (·.name)).contains m))) = 1 := by
        apply List.count_eq_one_of_mem hnodupB
        refine List.mem_filter.mpr ⟨(mem_dictKeys n bl).mpr hb, ?_⟩
        simpa using hp
      omega
  · rintro ⟨hp, hb⟩
    have h1 : List.count n (dictKeys pl) = 0 :=
      List.count_eq_zero_of_not_mem (fun hmem => hp ((mem_dictKeys n pl).mp hmem))
    have h2 : List.count n ((dictKeys bl).filter
        (fun m => !((pl.map (·.name)).contains m))) = 0 :=
      List.count_eq_zero_of_not_mem (fun hmem =>
        hb ((mem_dictKeys n bl).mp (List.mem_of_mem_filter hmem)))
    omega

/-- A planned-only cable for the C8 witness. -/
def c8Planned : CableDict :=
  { name := "P1", fiber_length_km := 5, construction_status := "Planned",
    specification := "ADSS 12C" }

/-- A built-only cable for the C8 witness. -/
def c8Built : CableDict :=
  { name := "B1", fiber_length_km := 7, construction_status := "In Service",
    specification := "ADSS 24C" }

/-- Witness for C8 at a concrete input. -/
theorem compare_networks_coverage_exact_witness :
    ((compare_networks [c8Planned] [c8Built] none).cable_comparisons.countP
      (fun r => r.cable_id == "P1")) = 1 ∧
    ((compare_networks [c8Planned] [c8Built] none).cable_comparisons.countP
      (fun r => r.cable_id == "Z")) = 0 :=
  ⟨(compare_networks_coverage_exact [c8Planned] [c8Built] none "P1").1 (by decide),
   (compare_networks_coverage_exact [c8Planned] [c8Built] none "Z").2 (by decide)⟩

/-- Inserting an element whose key strictly dominates a block passes over
the whole block. -/
theorem insertByKey_append {α : Type} (key : α → ℕ) (x : α) :
    ∀ (l1 l2 : List α), (∀ y ∈ l1, key y < key x) →
      insertByKey key x (l1 ++ l2) = l1 ++ insertByKey key x l2 := by
  intro l1
  induction l1 with
  | nil => intro l2 _; simp
  | cons a t ih =>
    intro l2 h
    have ha : key a < key x := h a (List.mem_cons_self a t)
    simp only [List.cons_append, insertByKey, if_pos ha, List.append_eq]
    rw [ih l2 (fun y hy => h y (List.mem_cons_of_mem a hy))]

/-- Inserting an element of minimal-or-equal key in front of a block whose
keys are not smaller puts it at the head. -/
theorem insertByKey_front {α : Type} (key : α → ℕ) (x : α) :
    ∀ (l : List α), (∀ y ∈ l, ¬ key y < key x) →
      insertByKey key x l = x :: l := by
  intro l h
  cases l with
  | nil => rfl
  | cons a t =>
    simp only [insertByKey, if_neg (h a (List.mem_cons_self a t))]

/-- A stable ascending sort of a list whose keys only take the values 0 and
1 is the key-0 elements (in order) followed by the key-1 elements (in
order). -/
theorem sortByKey_two_valued {α : Type} (key : α → ℕ) :
    ∀ (l : List α), (∀ x ∈ l, key x = 0 ∨ key x = 1) →
      sortByKey key l
        = l.filter (fun x => key x == 0) ++ l.filter (fun x => key x == 1) := by
  intro l
  induction l with
  | nil => intro _; simp [sortByKey]
  | cons x xs ih =>
    intro h
    have hxs : ∀ y ∈ xs, key y = 0 ∨ key y = 1 :=
      fun y hy => h y (List.mem_cons_of_mem _ hy)
    have hmem0 : ∀ y ∈ xs.filter (fun z => key z == 0), key y = 0 := by
      intro y hy
      have := (List.mem_filter.mp hy).2
      simpa using this
    have hmem1 : ∀ y ∈ xs.filter (fun z => key z == 1), key y = 1 := by
      intro y hy
      have := (List.mem_filter.mp hy).2
      simpa using this
    rw [sortByKey, ih hxs]
    rcases h x (List.mem_cons_self _ _) with h0 | h1
    · rw [insertByKey_front key x _ ?front]
      case front =>
        intro y hy
        rw [h0]
        exact Nat.not_lt_zero _
      simp only [List.filter_cons, h0]
      norm_num
    · rw [insertByKey_append key x _ _ ?block]
      case block =>
        intro y hy
        rw [hmem0 y hy, h1]
        norm_num
      rw [insertByKey_front key x _ ?front]
      case front =>
        intro y hy
        rw [hmem1 y hy, h1]
        exact lt_irrefl 1
      simp only [List.filter_cons, h1]
      norm_num

/-- The sort key takes value 0 exactly on "Major Deviation" and 1 exactly
on "Minor Deviation". -/
theorem severity_order_cases (s : String) :
    (severity_order s = 0 ↔ s = "Major Deviation") ∧
    (severity_order s = 1 ↔ s = "Minor Deviation") := by
  unfold severity_order
  by_cases h1 : s = "Major Deviation"
  · simp [h1]
  · by_cases h2 : s = "Minor Deviation"
    · simp [h1, h2]
    · simp [h1, h2]

/-- C9: the discrepancy list is exactly the non-Compliant comparisons,
with every Major Deviation entry before every Minor Deviation entry and the
original comparison order preserved inside each tier (a stable two-tier
sort equals the concatenation of the two order-preserving filters). -/
theorem discrepancies_sorted_major_first (comparisons : List ComparisonResult) :
    identify_discrepancies comparisons
      = (let ds := (comparisons.filter (fun c =>
            c.compliance_status == "Minor Deviation" ||
            c.compliance_status == "Major Deviation")).map
            (fun c =>
              ({ cable_id := c.cable_id
                 severity := c.compliance_status
                 length_variance_pct := c.length_variance_pct
                 remarks := c.remarks } : Discrepancy));
        ds.filter (fun d => d.severity == "Major Deviation")
          ++ ds.filter (fun d => d.severity == "Minor Deviation")) := by
  simp only [identify_discrepancies]
  have hkeys : ∀ d ∈ (comparisons.filter (fun c =>
      c.compliance_status == "Minor Deviation" ||
      c.compliance_status == "Major Deviation")).map
      (fun c =>
        ({ cable_id := c.cable_id
           severity := c.compliance_status
           length_variance_pct := c.length_variance_pct
           remarks := c.remarks } : Discrepancy)),
      severity_order d.severity = 0 ∨ severity_order d.severity = 1 := by
    intro d hd
    rcases List.mem_map.mp hd with ⟨c, hc, rfl⟩
    have hcs := (List.mem_filter.mp hc).2
    rcases Bool.or_eq_true_iff.mp hcs with hmi | hma
    · right
      have : c.compliance_status = "Minor Deviation" := by simpa using hmi
      simp [severity_order, this]
    · left
      have : c.compliance_status = "Major Deviation" := by simpa using hma
      simp [severity_order, this]
  rw [sortByKey_two_valued _ _ hkeys]
  congr 1
  · apply List.filter_congr
    intro d _
    rw [Bool.eq_iff_iff]
    simp only [beq_iff_eq]
    exact (severity_order_cases d.severity).1
  · apply List.filter_congr
    intro d _
    rw [Bool.eq_iff_iff]
    simp only [beq_iff_eq]
    exact (severity_order_cases d.severity).2

/-! ## Geo-document parser (`kml_parser.py`)

A KML document is embedded as the list of its Placemark elements, each
reduced to what `_parse_placemark` reads of it: the text of its `name` and
`description` children (absent elements are `none`) and the text of its
first `Point/coordinates` respectively `LineString/coordinates` descendant.
The XML decoding step itself (`ET.parse`) is outside every claim. -/

/-- `Coordinate` dataclass. -/
structure Coordinate where
  longitude : ℚ
  latitude : ℚ
  altitude : ℚ := 0
deriving DecidableEq

/-- `Pole` dataclass. -/
structure Pole where
  name : String
  designator : String
  construction_status : String
  material_type : String
  usage : String
  coordinates : Coordinate
deriving DecidableEq

/-- `ODP` dataclass. -/
structure ODP where
  name : String
  specification : String
  splice_type : String
  construction_status : String
  coordinates : Coordinate
deriving DecidableEq

/-- `Cable` dataclass (`fiber_length` in meters). -/
structure Cable where
  name : String
  specification : String
  number_of_cores : ℤ
  fiber_length : ℚ
  construction_status : String
  coordinates : List Coordinate
deriving DecidableEq

/-- One entry of the `raw_placemarks` audit list. -/
structure RawPlacemark where
  name : String
  description : String
  type : String
deriving DecidableEq

/-- `NetworkData` dataclass. -/
structure NetworkData where
  poles : List Pole
  odps : List ODP
  cables : List Cable
  raw_placemarks : List RawPlacemark
deriving DecidableEq

/-- A KML Placemark element, reduced to what the parser reads of it. -/
structure Placemark where
  name : Option String
  description : Option String
  point_coordinates : Option String
  linestring_coordinates : Option String
deriving DecidableEq

/-- The mutable lists a `KMLParser` instance holds (`__init__` starts all
four empty; `parse_file` only ever appends to them). -/
structure KMLParserState where
  poles : List Pole := []
  odps : List ODP := []
  cables : List Cable := []
  raw_placemarks : List RawPlacemark := []
deriving DecidableEq

/-- `KMLParser._is_pole` (the indicator `"PU-"` is compared, as in the
source, against lowercased text without itself being lowercased). -/
def is_pole (name description : String) : Bool :=
  let pole_indicators : List String := ["tiang", "pole", "PU-", "designator:pu"]
  let name_lower := pyLower name
  let desc_lower := pyLower description
  pole_indicators.any (fun ind => strIn ind name_lower || strIn ind desc_lower)

/-- `KMLParser._is_odp`. -/
def is_odp (name description : String) : Bool :=
  let odp_indicators : List String := ["odp", "optical distribution", "splice"]
  let name_lower := pyLower name
  let desc_lower := pyLower description
  odp_indicators.any (fun ind => strIn ind name_lower || strIn ind desc_lower)

/-- `KMLParser._is_cable`. -/
def is_cable (name description : String) : Bool :=
  let cable_indicators : List String :=
    ["cable", "kabel", "fiber length", "number of core", "adss"]
  let name_lower := pyLower name
  let desc_lower := pyLower description
  cable_indicators.any (fun ind => strIn ind name_lower || strIn ind desc_lower)

/-- Case-insensitive literal prefix match, returning the rest of the input. -/
def ciPrefixDrop : List Char → List Char → Option (List Char)
  | [], s => some s
  | _ :: _, [] => none
  | f :: fs, c :: cs => if f.toLower = c.toLower then ciPrefixDrop fs cs else none

/-- Match `field_name\s*:\s*([^\n]+)` (case-insensitive) anchored at the
start of `s`, returning the capture group.  The greedy `\s*` runs only
backtrack when `[^\n]+` has nothing left to match, in which case the group
is the last non-newline whitespace character of the run (a group that
strips to the empty string). -/
def matchFieldAt (field s : List Char) : Option (List Char) :=
  match ciPrefixDrop field s with
  | none => none
  | some s1 =>
    match s1.dropWhile pyIsSpace with
    | ':' :: s2 =>
      let ws := s2.takeWhile pyIsSpace
      match s2.dropWhile pyIsSpace with
      | c :: rest2 => some ((c :: rest2).takeWhile (fun x => !(x == '\n')))
      | [] =>
        match ws.reverse.dropWhile (fun x => x == '\n') with
        | [] => none
        | c :: _ => some [c]
    | _ => none

/-- `re.search`: try the pattern at every start position, leftmost match
first. -/
def searchField (field : List Char) : List Char → Option (List Char)
  | [] => matchFieldAt field []
  | c :: rest =>
    match matchFieldAt field (c :: rest) with
    | some g => some g
    | none => searchField field rest

/-- `KMLParser._extract_field`: first regex match of
`{field_name}\s*:\s*([^\n]+)` in the description, stripped. -/
def extract_field (description field_name : String) : Option String :=
  (searchField field_name.data description.data).map (fun g => String.mk (pyStripL g))

/-- `KMLParser._parse_length`.  The source lowercases, removes `"meter"`
and then every `"m"`, strips, and only then looks for a `"km"` suffix; the
`try` block turns any `ValueError` into `0.0`. -/
def parse_length (length_str : String) : ℚ :=
  let s0 := pyLower length_str
  let s1 := pyReplace (pyReplace s0 "meter" "") "m" ""
  let s2 := pyStripS s1
  if strIn "km" s2 then
    let s3 := pyStripS (pyReplace s2 "km" "")
    match pyFloat? s3 with
    | some v => v * 1000
    | none => 0
  else
    match pyFloat? s2 with
    | some v => v
    | none => 0

/-- `KMLParser._parse_coordinates`: whitespace-separated
`longitude,latitude[,altitude]` tuples; a tuple whose required parts fail
`float` (or whose present altitude does) is skipped individually. -/
def parse_coordinates (coord_text : Option String) : List Coordinate :=
  match coord_text with
  | none => []
  | some t =>
    if t.data.isEmpty then []
    else
      (pySplitWs (pyStripL t.data)).filterMap (fun part =>
        match splitOnComma part with
        | v0 :: v1 :: rest =>
          match pyFloat? (String.mk v0) with
          | none => none
          | some lon =>
            match pyFloat? (String.mk v1) with
            | none => none
            | some lat =>
              match rest with
              | [] => some { longitude := lon, latitude := lat, altitude := 0 }
              | v2 :: _ =>
                match pyFloat? (String.mk v2) with
                | none => none
                | some alt => some { longitude := lon, latitude := lat, altitude := alt }
        | _ => none)

/-- `KMLParser._parse_pole`. -/
def parse_pole (placemark : Placemark) (name description : String) : Option Pole :=
  match placemark.point_coordinates with
  | none => none
  | some _ =>
    match parse_coordinates placemark.point_coordinates with
    | [] => none
    | c :: _ =>
      some
        { name := name
          designator := pyOrStr (extract_field description "Designator") name
          construction_status :=
            pyOrStr (extract_field description "Construction Status") "Unknown"
          material_type := pyOrStr (extract_field description "Material Type") "Unknown"
          usage := pyOrStr (extract_field description "Usage") "Telco"
          coordinates := c }

/-- `KMLParser._parse_odp`. -/
def parse_odp (placemark : Placemark) (name description : String) : Option ODP :=
  match placemark.point_coordinates with
  | none => none
  | some _ =>
    match parse_coordinates placemark.point_coordinates with
    | [] => none
    | c :: _ =>
      some
        { name := name
          specification :=
            pyOrStr (extract_field description "Specification ID") "Unknown"
          splice_type := pyOrStr (extract_field description "Splice Type") "Unknown"
          construction_status :=
            pyOrStr (extract_field description "Construction Status") "Unknown"
          coordinates := c }

/-- `KMLParser._parse_cable`.  `int(cores_str)` is applied only when
`cores_str` passes `str.isdigit`; `_parse_length` only when `length_str` is
truthy. -/
def parse_cable (placemark : Placemark) (name description : String) : Option Cable :=
  match placemark.linestring_coordinates with
  | none => none
  | some _ =>
    match parse_coordinates placemark.linestring_coordinates with
    | [] => none
    | c :: cs =>
      let specification := extract_field description "Specification"
      let cores_str := extract_field description "Number of Core"
      let length_str := extract_field description "Fiber Length"
      let construction_status := extract_field description "Construction Status"
      let cores : ℤ :=
        match cores_str with
        | some s => if !s.data.isEmpty && s.data.all Char.isDigit
                    then (digitsToNat s.data : ℤ) else 0
        | none => 0
      let length : ℚ :=
        match length_str with
        | some s => if s = "" then 0 else parse_length s
        | none => 0
      some
        { name := name
          specification := pyOrStr specification "Unknown"
          number_of_cores := cores
          fiber_length := length
          construction_status := pyOrStr construction_status "Unknown"
          coordinates := c :: cs }

/-- `KMLParser._determine_type`. -/
def determine_type (name description : String) : String :=
  if is_pole name description then "pole"
  else if is_odp name description then "odp"
  else if is_cable name description then "cable"
  else "unknown"

/-- `KMLParser._parse_placemark`: classify, append the typed entity to the
instance list of its category (when its geometry parses), and always append
to the raw audit list. -/
def parse_placemark (st : KMLParserState) (pm : Placemark) : KMLParserState :=
  let name := pm.name.getD "Unknown"
  let description := pm.description.getD ""
  let st1 :=
    if is_pole name description then
      match parse_pole pm name description with
      | some p => { st with poles := st.poles ++ [p] }
      | none => st
    else if is_odp name description then
      match parse_odp pm name description with
      | some o => { st with odps := st.odps ++ [o] }
      | none => st
    else if is_cable name description then
      match parse_cable pm name description with
      | some c => { st with cables := st.cables ++ [c] }
      | none => st
    else st
  { st1 with
    raw_placemarks := st1.raw_placemarks ++
      [{ name := name, description := description,
         type := determine_type name description }] }

/-- `KMLParser.parse_file`: iterate `_parse_placemark` over the document's
placemarks, then return a `NetworkData` built from the instance lists —
which are never reset, so the returned pair carries the updated instance
state alongside the snapshot. -/
def parse_file (st : KMLParserState) (doc : List Placemark) :
    KMLParserState × NetworkData :=
  let st1 := doc.foldl parse_placemark st
  (st1,
   { poles := st1.poles, odps := st1.odps, cables := st1.cables,
     raw_placemarks := st1.raw_placemarks })

/-! ## Claims about the geo-document parser (C1, C3) -/

/-- A fresh parser instance (`KMLParser.__init__`). -/
def freshKMLParser : KMLParserState := {}

/-- A document with a single cable placemark (empty description). -/
def cablePlacemark : Placemark :=
  { name := some "cable-1", description := some "",
    point_coordinates := none,
    linestring_coordinates := some "0,0,0 0.001,0,0" }

/-- C1: `parse_file` is not stateless — a parser that has already parsed a
document with one cable returns, for a second (here: empty) document, a
snapshot still containing that cable, while a fresh parser returns an empty
snapshot for the same document. -/
theorem parse_file_accumulates_across_documents :
    ((parse_file (parse_file freshKMLParser [cablePlacemark]).1
        ([] : List Placemark)).2).cables.length = 1 ∧
    ((parse_file freshKMLParser ([] : List Placemark)).2).cables.length = 0 := by
  decide

/-- C3: `_parse_length` first deletes every `"m"` character, so the `"km"`
suffix can never be seen: `"1.5km"` becomes `"1.5k"`, `float` fails, and
the result is 0 instead of the claimed 1500; the plain-`"m"` form works as
specified. -/
theorem parse_length_km_suffix_bug :
    parse_length "1.5km" = 0 ∧ parse_length "123m" = 123 := by
  decide

end FoAnalysis
